import Mathlib

/-!
Shallow embedding of the GestorDocmendoza document manager
(src/App.tsx, which bundles the React component, the storage service
and the type declarations).

JavaScript numbers are modelled as rationals (ℚ); the numbering
counters, which the code only reads, stringifies and increments by 1,
are modelled as naturals.  A JS string field that the code tests for
truthiness (`if (!docNumber)`, `if (item.id)`) is modelled as a
`String` with `""` standing for unset/undefined: the only producers in
the app either leave it undefined or set it to `''`.

The file is organised as definitions first (data model, storage
operations, the save handler, concrete fixtures), then the theorems
settling the specification claims.
-/

/-- Type `'presupuesto' | 'entrega'` from types.ts. -/
inductive DocType where
  | presupuesto
  | entrega
deriving DecidableEq

/-- Type `'draft' | 'final'` from types.ts. -/
inductive Status where
  | draft
  | final
deriving DecidableEq

/-- Type `'left' | 'center' | 'right'` from types.ts (`logoPosition`). -/
inductive LogoPosition where
  | left
  | center
  | right
deriving DecidableEq

/-- Interface `DocItem` from types.ts.  `id` is the linked product id (`""` for a
custom, unlinked item), `total` is the stored line total field. -/
structure DocItem where
  id : String
  rowId : String
  description : String
  unit : String
  quantity : ℚ
  price : ℚ
  total : ℚ
deriving DecidableEq

/-- Interface `Document` from types.ts.  `number` is `""` while the document is an
un-numbered draft (JS `undefined` or `''`, both falsy). -/
structure Document where
  id : String
  number : String
  type : DocType
  date : String
  time : String
  dueDate : Option String
  clientName : String
  clientRif : String
  clientAddress : String
  clientPhone : String
  description : String
  items : List DocItem
  subtotal : ℚ
  taxRate : ℚ
  taxAmount : ℚ
  total : ℚ
  status : Status
deriving DecidableEq

/-- Interface `Product` from types.ts. -/
structure Product where
  id : String
  code : String
  description : String
  price : ℚ
  stock : ℚ
  unit : String
deriving DecidableEq

/-- Interface `Client` from types.ts. -/
structure Client where
  id : String
  name : String
  rif : String
  address : String
  phone : String
deriving DecidableEq

/-- Interface `CompanySettings` from types.ts. -/
structure CompanySettings where
  name : String
  rif : String
  address : String
  phone : String
  logoUrl : String
  email : String
  terms : String
  paymentConditions : String
  nextBudgetNumber : ℕ
  nextDeliveryNumber : ℕ
  defaultTaxRate : ℚ
  currencySymbol : String
  logoPosition : LogoPosition
  primaryColor : String
deriving DecidableEq

/-- The result record of `calculateTotals` (App.tsx line 229). -/
structure Totals where
  subtotal : ℚ
  taxAmount : ℚ
  total : ℚ
deriving DecidableEq

/-- Function `calculateTotals` (App.tsx lines 226-230):
`sub = items.reduce((acc, i) => acc + i.total, 0)`,
`tax = sub * (rate / 100)`, result `{subtotal, taxAmount, total}`. -/
def calculateTotals (items : List DocItem) (rate : ℚ) : Totals :=
  let sub := items.foldl (fun acc i => acc + i.total) 0
  let tax := sub * (rate / 100)
  { subtotal := sub, taxAmount := tax, total := sub + tax }

/-- A line item used in sample documents: linked product `pid`,
quantity `q`, price `p`, stored total `t`. -/
def mkItem (pid : String) (q p t : ℚ) : DocItem :=
  { id := pid, rowId := "r", description := "item", unit := "und",
    quantity := q, price := p, total := t }

/-- C1 counterexample input: a line item whose stored `total` field (5)
disagrees with quantity × price (1 × 1 = 1). -/
def staleItem : DocItem := mkItem "" 1 1 5

/-- Constant `DEFAULT_SETTINGS` from services/storage.ts. -/
def DEFAULT_SETTINGS : CompanySettings :=
  { name := "Casticel C.A."
    rif := "J-31348693-0"
    address := "Av. 5 de Diciembre, al lado del Banco Industrial. Acarigua 3303, Portuguesa."
    phone := "0416-6367466"
    logoUrl := "https://picsum.photos/100/100"
    email := "contacto@casticel.com"
    terms := "* Precios sujetos a cambio sin previo aviso.\n* Validez de la oferta: 5 dias."
    paymentConditions := "80% de anticipo, saldo contra valuaciones parciales."
    nextBudgetNumber := 1
    nextDeliveryNumber := 1
    defaultTaxRate := 16
    currencySymbol := "$"
    logoPosition := LogoPosition.left
    primaryColor := "#0369a1" }

/-- A settings value as parsed back from local storage: each field may
be absent from the stored JSON, so each is optional.  The spread
`{ ...DEFAULT_SETTINGS, ...JSON.parse(saved) }` overrides a default
exactly when the parsed object carries the field. -/
structure StoredSettings where
  name : Option String := none
  rif : Option String := none
  address : Option String := none
  phone : Option String := none
  logoUrl : Option String := none
  email : Option String := none
  terms : Option String := none
  paymentConditions : Option String := none
  nextBudgetNumber : Option ℕ := none
  nextDeliveryNumber : Option ℕ := none
  defaultTaxRate : Option ℚ := none
  currencySymbol : Option String := none
  logoPosition : Option LogoPosition := none
  primaryColor : Option String := none
deriving DecidableEq

/-- Function `getSettings` (services/storage.ts lines 859-862):
`saved ? { ...DEFAULT_SETTINGS, ...JSON.parse(saved) } : DEFAULT_SETTINGS`,
with `saved` the raw stored value (`none` when the key is unset). -/
def getSettings (saved : Option StoredSettings) : CompanySettings :=
  match saved with
  | none => DEFAULT_SETTINGS
  | some s =>
      { name := s.name.getD DEFAULT_SETTINGS.name
        rif := s.rif.getD DEFAULT_SETTINGS.rif
        address := s.address.getD DEFAULT_SETTINGS.address
        phone := s.phone.getD DEFAULT_SETTINGS.phone
        logoUrl := s.logoUrl.getD DEFAULT_SETTINGS.logoUrl
        email := s.email.getD DEFAULT_SETTINGS.email
        terms := s.terms.getD DEFAULT_SETTINGS.terms
        paymentConditions := s.paymentConditions.getD DEFAULT_SETTINGS.paymentConditions
        nextBudgetNumber := s.nextBudgetNumber.getD DEFAULT_SETTINGS.nextBudgetNumber
        nextDeliveryNumber := s.nextDeliveryNumber.getD DEFAULT_SETTINGS.nextDeliveryNumber
        defaultTaxRate := s.defaultTaxRate.getD DEFAULT_SETTINGS.defaultTaxRate
        currencySymbol := s.currencySymbol.getD DEFAULT_SETTINGS.currencySymbol
        logoPosition := s.logoPosition.getD DEFAULT_SETTINGS.logoPosition
        primaryColor := s.primaryColor.getD DEFAULT_SETTINGS.primaryColor }

/-- Function `saveDocument` (services/storage.ts lines 874-885) on the stored
document list: replace the first entry whose `id` matches, else push at
the end (`findIndex` / `docs[existingIndex] = doc` / `docs.push(doc)`). -/
def saveDocument : List Document → Document → List Document
  | [], doc => [doc]
  | d :: ds, doc =>
      if d.id = doc.id then doc :: ds else d :: saveDocument ds doc

/-- Function `deleteDocument` (services/storage.ts lines 887-890):
`getDocuments().filter(d => d.id !== id)`. -/
def deleteDocument (docs : List Document) (i : String) : List Document :=
  docs.filter (fun d => d.id ≠ i)

/-- Function `saveProduct` (services/storage.ts lines 898-907): replace the first
inventory entry whose `id` matches, else push at the end. -/
def saveProduct : List Product → Product → List Product
  | [], p => [p]
  | q :: qs, p =>
      if q.id = p.id then p :: qs else q :: saveProduct qs p

/-- Function `deleteProduct` (services/storage.ts lines 909-912):
`getInventory().filter(p => p.id !== id)`. -/
def deleteProduct (inv : List Product) (i : String) : List Product :=
  inv.filter (fun p => p.id ≠ i)

/-- Function `saveClient` (services/storage.ts lines 920-929): replace the first
client entry whose `id` matches, else push at the end. -/
def saveClient : List Client → Client → List Client
  | [], c => [c]
  | d :: ds, c =>
      if d.id = c.id then c :: ds else d :: saveClient ds c

/-- Function `deleteClient` (services/storage.ts lines 931-934):
`getClients().filter(c => c.id !== id)`. -/
def deleteClient (cls : List Client) (i : String) : List Client :=
  cls.filter (fun c => c.id ≠ i)

/-- JS `String.prototype.padStart(w, c)`: left-pad with `c` up to width
`w` (identity when the string is already at least that long). -/
def padStart (w : ℕ) (c : Char) (s : String) : String :=
  String.mk (List.replicate (w - s.length) c) ++ s

/-- One step of the inventory deduction loop (App.tsx lines 215-216):
`const p = newInv.find(p => p.id === item.id); if (p) p.stock -= item.quantity`
— decrement the stock of the first product whose id matches, if any. -/
def decFirst : List Product → String → ℚ → List Product
  | [], _, _ => []
  | p :: ps, pid, q =>
      if p.id = pid then { p with stock := p.stock - q } :: ps
      else p :: decFirst ps pid q

/-- One iteration of `finalDoc.items.forEach` (App.tsx lines 213-218):
items with an empty (falsy) product id are skipped. -/
def applyItem (inv : List Product) (item : DocItem) : List Product :=
  if item.id = "" then inv else decFirst inv item.id item.quantity

/-- The whole inventory deduction loop over the document's items. -/
def applyItems (inv : List Product) (items : List DocItem) : List Product :=
  items.foldl applyItem inv

/-- Stock of the first inventory entry with the given product id
(`none` when no entry matches), the observation the app itself makes
with `find`. -/
def stockOf (inv : List Product) (pid : String) : Option ℚ :=
  (inv.find? (fun p => p.id = pid)).map Product.stock

/-- Total quantity that the document's items charge against product
`pid` (only items carrying that non-empty product link count). -/
def itemsQty (items : List DocItem) (pid : String) : ℚ :=
  ((items.filter (fun i => i.id = pid ∧ i.id ≠ "")).map DocItem.quantity).sum

/-- The persisted key-value store: the four collections of
services/storage.ts, each read/replaced wholesale. -/
structure Storage where
  settings : CompanySettings
  documents : List Document
  inventory : List Product
  clients : List Client
deriving DecidableEq

/-- The component state of `App` plus the persisted store plus the
alerts raised so far: `settings`, `documents`, `inventory`, `clients`
are the React state mirrors, `currentDoc` the draft being edited. -/
structure AppState where
  settings : CompanySettings
  documents : List Document
  inventory : List Product
  clients : List Client
  store : Storage
  currentDoc : Document
  alerts : List String
deriving DecidableEq

/-- Handler `handleSaveDocument` (App.tsx lines 185-224) as a state transition:
validation alert on empty client name; otherwise number generation and
counter increment when `currentDoc.number` is falsy, persisting the
settings; `saveDocument` of the finalized document and reload of the
document list; inventory deduction (and `saveProduct` of every entry of
the new in-memory inventory) only when the document is a delivery note
being numbered for the first time; success alert. -/
def handleSaveDocument (s : AppState) : AppState :=
  if s.currentDoc.clientName = "" then
    { s with alerts := s.alerts ++ ["El cliente es obligatorio"] }
  else
    let gen := s.currentDoc.number = ""
    let isBudget := s.currentDoc.type = DocType.presupuesto
    let pfx := if isBudget then "PRE-" else "NE-"
    let nextNum := if isBudget then s.settings.nextBudgetNumber
                   else s.settings.nextDeliveryNumber
    let docNumber := if gen then pfx ++ padStart 6 '0' (toString nextNum)
                     else s.currentDoc.number
    let newSettings :=
      if gen then
        if isBudget then { s.settings with nextBudgetNumber := nextNum + 1 }
        else { s.settings with nextDeliveryNumber := nextNum + 1 }
      else s.settings
    let store1 := if gen then { s.store with settings := newSettings }
                  else s.store
    let finalDoc := { s.currentDoc with number := docNumber, status := Status.final }
    let store2 := { store1 with documents := saveDocument store1.documents finalDoc }
    if finalDoc.type = DocType.entrega ∧ s.currentDoc.number = "" then
      let newInv := applyItems s.inventory finalDoc.items
      let store3 := { store2 with inventory := newInv.foldl saveProduct store2.inventory }
      { settings := newSettings
        documents := store2.documents
        inventory := newInv
        clients := s.clients
        store := store3
        currentDoc := finalDoc
        alerts := s.alerts ++ ["Documento guardado con exito"] }
    else
      { settings := newSettings
        documents := store2.documents
        inventory := s.inventory
        clients := s.clients
        store := store2
        currentDoc := finalDoc
        alerts := s.alerts ++ ["Documento guardado con exito"] }

/-- A sample draft document (as produced by `handleCreateNew` followed
by edits): no number yet, non-empty client name. -/
def sampleDraft (ty : DocType) (items : List DocItem) : Document :=
  { id := "doc-1", number := "", type := ty, date := "01/01/2026",
    time := "10:00:00", dueDate := none, clientName := "ACME",
    clientRif := "J-1", clientAddress := "Calle 1", clientPhone := "0414",
    description := "", items := items, subtotal := 0, taxRate := 16,
    taxAmount := 0, total := 0, status := Status.draft }

/-- A sample inventory product. -/
def sampleProduct : Product :=
  { id := "p1", code := "PRD-001", description := "Cable", price := 10,
    stock := 1, unit := "und" }

/-- A sample app state with a synced store, one product in stock and a
draft delivery note taking quantity 3 of that product. -/
def sampleDeliveryState : AppState :=
  { settings := DEFAULT_SETTINGS
    documents := []
    inventory := [sampleProduct]
    clients := []
    store := { settings := DEFAULT_SETTINGS, documents := [],
               inventory := [sampleProduct], clients := [] }
    currentDoc := sampleDraft DocType.entrega [mkItem "p1" 3 10 30]
    alerts := [] }

/-- A sample app state with a draft quote and no items. -/
def sampleQuoteState : AppState :=
  { settings := DEFAULT_SETTINGS
    documents := []
    inventory := [sampleProduct]
    clients := []
    store := { settings := DEFAULT_SETTINGS, documents := [],
               inventory := [sampleProduct], clients := [] }
    currentDoc := sampleDraft DocType.presupuesto []
    alerts := [] }

/-- A sample app state whose draft has an empty client name. -/
def sampleNoClientState : AppState :=
  { sampleQuoteState with
      currentDoc := { sampleDraft DocType.presupuesto [] with clientName := "" } }

/-- A sample document already persisted, used by the deletion claims. -/
def sampleDoc : Document := sampleDraft DocType.presupuesto []

/-- A sample client entry. -/
def sampleClient : Client :=
  { id := "c1", name := "ACME", rif := "J-1", address := "Calle 1",
    phone := "0414" }

/-! ## Theorems -/

/-- The `reduce` over stored line totals is the list sum of the `total`
fields. -/
lemma foldl_add_total (items : List DocItem) (acc : ℚ) :
    items.foldl (fun a i => a + i.total) acc
      = acc + (items.map DocItem.total).sum := by
  induction items generalizing acc with
  | nil => simp
  | cons i is ih =>
      simp [List.foldl_cons, ih, add_assoc]

/-- C1 (counterexample): `calculateTotals` sums the stored `total`
fields of the items, not quantity × price, so for the non-empty item
list `[staleItem]` (quantity 1, price 1, stored total 5) and tax rate 0
the subtotal is 5 while the sum of quantity × price is 1: the claim as
stated over every item list is false. -/
theorem calculateTotals_subtotal_counterexample :
    (calculateTotals [staleItem] 0).subtotal
      ≠ ([staleItem].map (fun i => i.quantity * i.price)).sum := by
  norm_num [calculateTotals, staleItem, mkItem]

/-- C1 (amended): for every non-empty list of line items whose stored
`total` fields satisfy the invariant `total = quantity × price`
(maintained by every item editor in App.tsx, lines 585, 610, 621, 725),
and every tax rate, the subtotal produced by `calculateTotals` equals
the sum over the items of quantity × unit price. -/
theorem calculateTotals_subtotal_of_consistent (items : List DocItem)
    (rate : ℚ) (hne : items ≠ [])
    (hinv : ∀ i ∈ items, i.total = i.quantity * i.price) :
    (calculateTotals items rate).subtotal
      = (items.map (fun i => i.quantity * i.price)).sum := by
  have hmap : items.map DocItem.total
      = items.map (fun i => i.quantity * i.price) :=
    List.map_congr_left hinv
  simp [calculateTotals, foldl_add_total, hmap]

/-- Witness for C1's amended theorem at the concrete one-element list
`[mkItem "" 2 10 20]` with rate 16. -/
theorem calculateTotals_subtotal_of_consistent_witness :
    [mkItem "" 2 10 20] ≠ ([] : List DocItem) ∧
    (calculateTotals [mkItem "" 2 10 20] 16).subtotal
      = ([mkItem "" 2 10 20].map (fun i => i.quantity * i.price)).sum := by
  refine ⟨by simp, ?_⟩
  exact calculateTotals_subtotal_of_consistent [mkItem "" 2 10 20] 16
    (by simp)
    (by intro i hi; simp at hi; subst hi; norm_num [mkItem])

/-- C2: for every item list and every rate ≥ 0, `calculateTotals`
returns `taxAmount = subtotal * rate / 100` and
`total = subtotal + taxAmount`; and at the spec's example — items
{qty 2, price 10} and {qty 1, price 5} (stored totals 20 and 5) with
rate 16 — it returns subtotal 25, taxAmount 4, total 29. -/
theorem calculateTotals_tax_total (items : List DocItem) (rate : ℚ)
    (hrate : 0 ≤ rate) :
    (calculateTotals items rate).taxAmount
        = (calculateTotals items rate).subtotal * (rate / 100) ∧
    (calculateTotals items rate).total
        = (calculateTotals items rate).subtotal
          + (calculateTotals items rate).taxAmount ∧
    calculateTotals [mkItem "" 2 10 20, mkItem "" 1 5 5] 16
        = { subtotal := 25, taxAmount := 4, total := 29 } := by
  refine ⟨rfl, rfl, ?_⟩
  norm_num [calculateTotals, mkItem]

/-- Witness for C2 at rate 0 and the empty item list. -/
theorem calculateTotals_tax_total_witness :
    (calculateTotals [] 0).taxAmount
        = (calculateTotals [] 0).subtotal * ((0 : ℚ) / 100) ∧
    (calculateTotals [] 0).total
        = (calculateTotals [] 0).subtotal + (calculateTotals [] 0).taxAmount ∧
    calculateTotals [mkItem "" 2 10 20, mkItem "" 1 5 5] 16
        = { subtotal := 25, taxAmount := 4, total := 29 } :=
  calculateTotals_tax_total [] 0 le_rfl

/-- C9: with no stored settings value, `getSettings` returns the
default configuration (in particular counters 1 and 1 and default tax
rate 16); with a stored value, every field present in it overrides the
default and every absent field takes its default value (the `getD`
merge of the object spread). -/
theorem getSettings_defaults_and_merge (p : StoredSettings) :
    getSettings none = DEFAULT_SETTINGS ∧
    (getSettings none).nextBudgetNumber = 1 ∧
    (getSettings none).nextDeliveryNumber = 1 ∧
    (getSettings none).defaultTaxRate = 16 ∧
    (getSettings (some p)).name = p.name.getD DEFAULT_SETTINGS.name ∧
    (getSettings (some p)).rif = p.rif.getD DEFAULT_SETTINGS.rif ∧
    (getSettings (some p)).address = p.address.getD DEFAULT_SETTINGS.address ∧
    (getSettings (some p)).phone = p.phone.getD DEFAULT_SETTINGS.phone ∧
    (getSettings (some p)).logoUrl = p.logoUrl.getD DEFAULT_SETTINGS.logoUrl ∧
    (getSettings (some p)).email = p.email.getD DEFAULT_SETTINGS.email ∧
    (getSettings (some p)).terms = p.terms.getD DEFAULT_SETTINGS.terms ∧
    (getSettings (some p)).paymentConditions
        = p.paymentConditions.getD DEFAULT_SETTINGS.paymentConditions ∧
    (getSettings (some p)).nextBudgetNumber
        = p.nextBudgetNumber.getD DEFAULT_SETTINGS.nextBudgetNumber ∧
    (getSettings (some p)).nextDeliveryNumber
        = p.nextDeliveryNumber.getD DEFAULT_SETTINGS.nextDeliveryNumber ∧
    (getSettings (some p)).defaultTaxRate
        = p.defaultTaxRate.getD DEFAULT_SETTINGS.defaultTaxRate ∧
    (getSettings (some p)).currencySymbol
        = p.currencySymbol.getD DEFAULT_SETTINGS.currencySymbol ∧
    (getSettings (some p)).logoPosition
        = p.logoPosition.getD DEFAULT_SETTINGS.logoPosition ∧
    (getSettings (some p)).primaryColor
        = p.primaryColor.getD DEFAULT_SETTINGS.primaryColor :=
  ⟨rfl, rfl, rfl, rfl, rfl, rfl, rfl, rfl, rfl, rfl, rfl, rfl, rfl, rfl,
   rfl, rfl, rfl, rfl⟩

/-- A `filter` keeping the entries whose key differs from `i` equals
`eraseP` of the key-`i` entry, provided the keys are pairwise distinct
(so at most one entry can match). -/
lemma filter_ne_eq_eraseP {α : Type} (f : α → String) (l : List α)
    (i : String) (hnd : (l.map f).Nodup) :
    l.filter (fun x => f x ≠ i) = l.eraseP (fun x => f x = i) := by
  induction l with
  | nil => rfl
  | cons a t ih =>
      rw [List.map_cons, List.nodup_cons] at hnd
      by_cases h : f a = i
      · have ht : t.filter (fun x => f x ≠ i) = t := by
          apply List.filter_eq_self.mpr
          intro x hx
          have hne : f x ≠ i := by
            intro hxi
            exact hnd.1 (by rw [h, ← hxi]; exact List.mem_map_of_mem f hx)
          simpa using hne
        rw [List.filter_cons_of_neg (by simpa using h),
          List.eraseP_cons_of_pos (by simpa using h), ht]
      · rw [List.filter_cons_of_pos (by simpa using h),
          List.eraseP_cons_of_neg (by simpa using h), ih hnd.2]

/-- C7 (counterexample): for an id that matches no entry, the delete
operation removes nothing — deleting id `"zz"` from the one-document
list `[sampleDoc]` (whose document id is `"doc-1"`) leaves the list of
length 1, so it does not remove exactly one entry; the claim quantified
over every id is false. -/
theorem delete_removes_one_counterexample :
    ¬ ((deleteDocument [sampleDoc] "zz").length + 1
        = ([sampleDoc] : List Document).length) := by
  have hid : sampleDoc.id = "doc-1" := rfl
  simp [deleteDocument, hid]

/-- C7 (amended): for each collection (documents, products, clients)
whose ids are pairwise distinct — the invariant the save operations
maintain — and every id that occurs in the collection, the delete
operation removes exactly the one entry with that id (it equals
`eraseP` of that entry, so every other entry is kept, in order) and
shrinks the collection by one. -/
theorem delete_removes_exactly_one (docs : List Document)
    (prods : List Product) (cls : List Client) (i1 i2 i3 : String)
    (hd : (docs.map Document.id).Nodup) (hdm : i1 ∈ docs.map Document.id)
    (hp : (prods.map Product.id).Nodup) (hpm : i2 ∈ prods.map Product.id)
    (hc : (cls.map Client.id).Nodup) (hcm : i3 ∈ cls.map Client.id) :
    deleteDocument docs i1 = docs.eraseP (fun d => d.id = i1) ∧
    (deleteDocument docs i1).length + 1 = docs.length ∧
    deleteProduct prods i2 = prods.eraseP (fun p => p.id = i2) ∧
    (deleteProduct prods i2).length + 1 = prods.length ∧
    deleteClient cls i3 = cls.eraseP (fun c => c.id = i3) ∧
    (deleteClient cls i3).length + 1 = cls.length := by
  obtain ⟨d, hdmem, hdi⟩ := List.mem_map.mp hdm
  obtain ⟨p, hpmem, hpi⟩ := List.mem_map.mp hpm
  obtain ⟨c, hcmem, hci⟩ := List.mem_map.mp hcm
  have e1 : deleteDocument docs i1 = docs.eraseP (fun d => d.id = i1) :=
    filter_ne_eq_eraseP Document.id docs i1 hd
  have e2 : deleteProduct prods i2 = prods.eraseP (fun p => p.id = i2) :=
    filter_ne_eq_eraseP Product.id prods i2 hp
  have e3 : deleteClient cls i3 = cls.eraseP (fun c => c.id = i3) :=
    filter_ne_eq_eraseP Client.id cls i3 hc
  have l1 : (docs.eraseP (fun d => d.id = i1)).length = docs.length - 1 :=
    List.length_eraseP_of_mem hdmem (by simpa using hdi)
  have l2 : (prods.eraseP (fun p => p.id = i2)).length = prods.length - 1 :=
    List.length_eraseP_of_mem hpmem (by simpa using hpi)
  have l3 : (cls.eraseP (fun c => c.id = i3)).length = cls.length - 1 :=
    List.length_eraseP_of_mem hcmem (by simpa using hci)
  have n1 : 1 ≤ docs.length := List.length_pos.mpr (by rintro rfl; simp at hdmem)
  have n2 : 1 ≤ prods.length := List.length_pos.mpr (by rintro rfl; simp at hpmem)
  have n3 : 1 ≤ cls.length := List.length_pos.mpr (by rintro rfl; simp at hcmem)
  refine ⟨e1, ?_, e2, ?_, e3, ?_⟩ <;> first
    | (rw [e1, l1]; omega)
    | (rw [e2, l2]; omega)
    | (rw [e3, l3]; omega)

/-- Witness for C7's amended theorem on the three one-entry
collections, deleting the id each entry actually carries. -/
theorem delete_removes_exactly_one_witness :
    deleteDocument [sampleDoc] "doc-1"
        = [sampleDoc].eraseP (fun d => d.id = "doc-1") ∧
    (deleteDocument [sampleDoc] "doc-1").length + 1
        = ([sampleDoc] : List Document).length ∧
    deleteProduct [sampleProduct] "p1"
        = [sampleProduct].eraseP (fun p => p.id = "p1") ∧
    (deleteProduct [sampleProduct] "p1").length + 1
        = ([sampleProduct] : List Product).length ∧
    deleteClient [sampleClient] "c1"
        = [sampleClient].eraseP (fun c => c.id = "c1") ∧
    (deleteClient [sampleClient] "c1").length + 1
        = ([sampleClient] : List Client).length :=
  delete_removes_exactly_one [sampleDoc] [sampleProduct] [sampleClient]
    "doc-1" "p1" "c1"
    (by simp) (by simp [sampleDoc, sampleDraft])
    (by simp) (by simp [sampleProduct])
    (by simp) (by simp [sampleClient])

/-- A string with a non-empty left part is non-empty. -/
lemma append_ne_empty (a b : String) (ha : a.length ≠ 0) : a ++ b ≠ "" := by
  intro he
  have hl := congrArg String.length he
  rw [String.length_append] at hl
  have hz : ("" : String).length = 0 := rfl
  rw [hz] at hl
  omega

/-- A generated quote number `"PRE-" ++ _` is never the empty string. -/
lemma pre_pad_ne_empty (x : String) : ¬ ("PRE-" ++ x = "") :=
  append_ne_empty "PRE-" x (by decide)

/-- A generated delivery number `"NE-" ++ _` is never the empty string. -/
lemma ne_pad_ne_empty (x : String) : ¬ ("NE-" ++ x = "") :=
  append_ne_empty "NE-" x (by decide)

/-- Saving the same document twice is the same as saving it once: the
second `findIndex` hits the entry the first save wrote. -/
lemma saveDocument_idem (docs : List Document) (d : Document) :
    saveDocument (saveDocument docs d) d = saveDocument docs d := by
  induction docs with
  | nil => simp [saveDocument]
  | cons a t ih =>
      by_cases h : a.id = d.id
      · simp [saveDocument, h]
      · simp [saveDocument, h, ih]

/-- C8: when the draft's client name is empty, the save operation only
raises the blocking notification `El cliente es obligatorio` and leaves
everything else — the persisted store (all four collections, hence the
document list, both numbering counters and the inventory), the
in-memory collections and the draft itself — unchanged. -/
theorem handleSave_empty_client_blocks (s : AppState)
    (h : s.currentDoc.clientName = "") :
    (handleSaveDocument s).store = s.store ∧
    (handleSaveDocument s).documents = s.documents ∧
    (handleSaveDocument s).settings = s.settings ∧
    (handleSaveDocument s).inventory = s.inventory ∧
    (handleSaveDocument s).clients = s.clients ∧
    (handleSaveDocument s).currentDoc = s.currentDoc ∧
    (handleSaveDocument s).alerts = s.alerts ++ ["El cliente es obligatorio"] := by
  simp [handleSaveDocument, h]

/-- Witness for C8 at the sample state whose draft has no client name. -/
theorem handleSave_empty_client_blocks_witness :
    (handleSaveDocument sampleNoClientState).store = sampleNoClientState.store ∧
    (handleSaveDocument sampleNoClientState).documents = sampleNoClientState.documents ∧
    (handleSaveDocument sampleNoClientState).settings = sampleNoClientState.settings ∧
    (handleSaveDocument sampleNoClientState).inventory = sampleNoClientState.inventory ∧
    (handleSaveDocument sampleNoClientState).clients = sampleNoClientState.clients ∧
    (handleSaveDocument sampleNoClientState).currentDoc = sampleNoClientState.currentDoc ∧
    (handleSaveDocument sampleNoClientState).alerts
        = sampleNoClientState.alerts ++ ["El cliente es obligatorio"] :=
  handleSave_empty_client_blocks sampleNoClientState rfl

/-- C3: saving a draft with no number assigns the type's fixed prefix
(`PRE-` for quotes, `NE-` for delivery notes) followed by the current
per-type counter zero-padded to width 6, increments exactly that
counter by 1 (the other stays), and persists the updated settings (the
stored settings equal the in-memory ones afterwards). -/
theorem handleSave_assigns_number_and_increments (s : AppState)
    (h1 : s.currentDoc.number = "") (h2 : ¬ s.currentDoc.clientName = "") :
    (handleSaveDocument s).currentDoc.number
        = (if s.currentDoc.type = DocType.presupuesto
           then "PRE-" ++ padStart 6 '0' (toString s.settings.nextBudgetNumber)
           else "NE-" ++ padStart 6 '0' (toString s.settings.nextDeliveryNumber)) ∧
    (handleSaveDocument s).store.settings.nextBudgetNumber
        = (if s.currentDoc.type = DocType.presupuesto
           then s.settings.nextBudgetNumber + 1
           else s.settings.nextBudgetNumber) ∧
    (handleSaveDocument s).store.settings.nextDeliveryNumber
        = (if s.currentDoc.type = DocType.presupuesto
           then s.settings.nextDeliveryNumber
           else s.settings.nextDeliveryNumber + 1) ∧
    (handleSaveDocument s).settings = (handleSaveDocument s).store.settings := by
  cases htype : s.currentDoc.type <;>
    simp [handleSaveDocument, h1, h2, htype]

/-- Witness for C3 at the sample quote state (counters at their
defaults, 1 and 1). -/
theorem handleSave_assigns_number_and_increments_witness :
    (handleSaveDocument sampleQuoteState).currentDoc.number
        = (if sampleQuoteState.currentDoc.type = DocType.presupuesto
           then "PRE-" ++ padStart 6 '0' (toString sampleQuoteState.settings.nextBudgetNumber)
           else "NE-" ++ padStart 6 '0' (toString sampleQuoteState.settings.nextDeliveryNumber)) ∧
    (handleSaveDocument sampleQuoteState).store.settings.nextBudgetNumber
        = (if sampleQuoteState.currentDoc.type = DocType.presupuesto
           then sampleQuoteState.settings.nextBudgetNumber + 1
           else sampleQuoteState.settings.nextBudgetNumber) ∧
    (handleSaveDocument sampleQuoteState).store.settings.nextDeliveryNumber
        = (if sampleQuoteState.currentDoc.type = DocType.presupuesto
           then sampleQuoteState.settings.nextDeliveryNumber
           else sampleQuoteState.settings.nextDeliveryNumber + 1) ∧
    (handleSaveDocument sampleQuoteState).settings
        = (handleSaveDocument sampleQuoteState).store.settings :=
  handleSave_assigns_number_and_increments sampleQuoteState rfl (by decide)

/-- C4: saving an already-saved document again without edits (the
editor holds exactly the document the first save produced) keeps the
same number, leaves both numbering counters unchanged (in memory and in
the store), and leaves the persisted — and the displayed — document
list exactly as it was after the first save. -/
theorem resave_is_idempotent (s : AppState)
    (h1 : s.currentDoc.number = "") (h2 : ¬ s.currentDoc.clientName = "") :
    (handleSaveDocument (handleSaveDocument s)).currentDoc.number
        = (handleSaveDocument s).currentDoc.number ∧
    (handleSaveDocument (handleSaveDocument s)).settings.nextBudgetNumber
        = (handleSaveDocument s).settings.nextBudgetNumber ∧
    (handleSaveDocument (handleSaveDocument s)).settings.nextDeliveryNumber
        = (handleSaveDocument s).settings.nextDeliveryNumber ∧
    (handleSaveDocument (handleSaveDocument s)).store.settings
        = (handleSaveDocument s).store.settings ∧
    (handleSaveDocument (handleSaveDocument s)).store.documents
        = (handleSaveDocument s).store.documents ∧
    (handleSaveDocument (handleSaveDocument s)).documents
        = (handleSaveDocument s).documents := by
  cases htype : s.currentDoc.type <;>
    simp [handleSaveDocument, h1, h2, htype, pre_pad_ne_empty,
      ne_pad_ne_empty, saveDocument_idem]

/-- Witness for C4 at the sample quote state. -/
theorem resave_is_idempotent_witness :
    (handleSaveDocument (handleSaveDocument sampleQuoteState)).currentDoc.number
        = (handleSaveDocument sampleQuoteState).currentDoc.number ∧
    (handleSaveDocument (handleSaveDocument sampleQuoteState)).settings.nextBudgetNumber
        = (handleSaveDocument sampleQuoteState).settings.nextBudgetNumber ∧
    (handleSaveDocument (handleSaveDocument sampleQuoteState)).settings.nextDeliveryNumber
        = (handleSaveDocument sampleQuoteState).settings.nextDeliveryNumber ∧
    (handleSaveDocument (handleSaveDocument sampleQuoteState)).store.settings
        = (handleSaveDocument sampleQuoteState).store.settings ∧
    (handleSaveDocument (handleSaveDocument sampleQuoteState)).store.documents
        = (handleSaveDocument sampleQuoteState).store.documents ∧
    (handleSaveDocument (handleSaveDocument sampleQuoteState)).documents
        = (handleSaveDocument sampleQuoteState).documents :=
  resave_is_idempotent sampleQuoteState rfl (by decide)

/-- Decrementing the first entry with id `pid` subtracts `q` from the
stock the app observes under `pid`. -/
lemma stockOf_decFirst_self (inv : List Product) (pid : String) (q : ℚ) :
    stockOf (decFirst inv pid q) pid
      = (stockOf inv pid).map (fun st => st - q) := by
  induction inv with
  | nil => rfl
  | cons p ps ih =>
      by_cases h : p.id = pid
      · simp [decFirst, stockOf, h]
      · simp only [decFirst, if_neg h]
        simpa [stockOf, List.find?_cons, h] using ih

/-- Decrementing the entry with id `pid` does not change the stock
observed under any other id. -/
lemma stockOf_decFirst_other (inv : List Product) (pid pid' : String)
    (q : ℚ) (h : pid' ≠ pid) :
    stockOf (decFirst inv pid q) pid' = stockOf inv pid' := by
  induction inv with
  | nil => rfl
  | cons p ps ih =>
      by_cases hp : p.id = pid
      · have hp' : ¬ p.id = pid' := by rw [hp]; exact fun he => h he.symm
        have hd : ¬ pid = pid' := fun he => h he.symm
        simp [decFirst, stockOf, hp, hp', hd]
      · by_cases hq : p.id = pid'
        · simp [decFirst, stockOf, hp, hq, h]
        · simp only [decFirst, if_neg hp]
          simpa [stockOf, List.find?_cons, hq] using ih

/-- Effect of one iteration of the deduction loop on the observed stock
of `pid`: only an item linked to `pid` (a non-empty link) subtracts its
quantity. -/
lemma stockOf_applyItem (inv : List Product) (it : DocItem) (pid : String) :
    stockOf (applyItem inv it) pid
      = if it.id = pid ∧ ¬ it.id = ""
        then (stockOf inv pid).map (fun st => st - it.quantity)
        else stockOf inv pid := by
  unfold applyItem
  by_cases h0 : it.id = ""
  · simp [h0]
  · by_cases h1 : it.id = pid
    · subst h1
      simp [h0, stockOf_decFirst_self]
    · have h1' : pid ≠ it.id := fun he => h1 he.symm
      simp [h0, h1, stockOf_decFirst_other inv it.id pid it.quantity h1']

/-- Splitting `itemsQty` at a cons. -/
lemma itemsQty_cons (it : DocItem) (its : List DocItem) (pid : String) :
    itemsQty (it :: its) pid
      = (if it.id = pid ∧ ¬ it.id = "" then it.quantity else 0)
        + itemsQty its pid := by
  unfold itemsQty
  rw [List.filter_cons]
  by_cases h : it.id = pid ∧ ¬ it.id = ""
  · rw [if_pos (by simpa using h), if_pos h]
    simp
  · rw [if_neg (by simpa using h), if_neg h]
    simp

/-- Effect of the whole deduction loop on the observed stock of `pid`:
the stock drops by the total quantity the items charge against `pid`
(and ids absent from the inventory stay absent). -/
lemma stockOf_applyItems (items : List DocItem) (inv : List Product)
    (pid : String) :
    stockOf (applyItems inv items) pid
      = (stockOf inv pid).map (fun st => st - itemsQty items pid) := by
  induction items generalizing inv with
  | nil =>
      cases h : stockOf inv pid <;> simp [applyItems, itemsQty, h]
  | cons it its ih =>
      have hstep : applyItems inv (it :: its) = applyItems (applyItem inv it) its := by
        simp [applyItems]
      rw [hstep, ih, stockOf_applyItem, itemsQty_cons]
      by_cases h : it.id = pid ∧ ¬ it.id = ""
      · rw [if_pos h, if_pos h]
        cases hs : stockOf inv pid <;> simp [hs, sub_sub]
      · rw [if_neg h, if_neg h]
        cases hs : stockOf inv pid <;> simp [hs]

/-- Lemma: `decFirst` preserves the list of product ids. -/
lemma map_id_decFirst (inv : List Product) (pid : String) (q : ℚ) :
    (decFirst inv pid q).map Product.id = inv.map Product.id := by
  induction inv with
  | nil => rfl
  | cons p ps ih =>
      by_cases h : p.id = pid
      · simp [decFirst, h]
      · simp [decFirst, h, ih]

/-- One iteration of the deduction loop preserves the product ids. -/
lemma map_id_applyItem (inv : List Product) (it : DocItem) :
    (applyItem inv it).map Product.id = inv.map Product.id := by
  unfold applyItem
  split
  · rfl
  · exact map_id_decFirst inv it.id it.quantity

/-- The whole deduction loop preserves the product ids. -/
lemma map_id_applyItems (items : List DocItem) (inv : List Product) :
    (applyItems inv items).map Product.id = inv.map Product.id := by
  induction items generalizing inv with
  | nil => rfl
  | cons it its ih =>
      have hstep : applyItems inv (it :: its) = applyItems (applyItem inv it) its := by
        simp [applyItems]
      rw [hstep, ih, map_id_applyItem]

/-- Lemma: `saveProduct` walks past a head entry with a different id. -/
lemma saveProduct_cons_of_ne (b : Product) (x : List Product)
    (c : Product) (h : ¬ b.id = c.id) :
    saveProduct (b :: x) c = b :: saveProduct x c := by
  simp [saveProduct, h]

/-- Folding `saveProduct` over entries whose ids all differ from the
head leaves the head in place. -/
lemma foldl_saveProduct_cons (b : Product) (x l : List Product)
    (h : ∀ c ∈ l, ¬ b.id = c.id) :
    List.foldl saveProduct (b :: x) l = b :: List.foldl saveProduct x l := by
  induction l generalizing x with
  | nil => rfl
  | cons c cs ih =>
      rw [List.foldl_cons, saveProduct_cons_of_ne b x c (h c (by simp)),
        List.foldl_cons]
      exact ih (saveProduct x c) (fun d hd => h d (by simp [hd]))

/-- Saving every entry of a list whose ids agree position-wise with the
stored inventory (ids pairwise distinct) replaces the stored inventory
with exactly that list: this is the `newInv.forEach(saveProduct)`
persistence step. -/
lemma foldl_saveProduct_self (l2 l1 : List Product)
    (hids : l1.map Product.id = l2.map Product.id)
    (hnd : (l1.map Product.id).Nodup) :
    List.foldl saveProduct l1 l2 = l2 := by
  induction l2 generalizing l1 with
  | nil =>
      have h0 : l1 = [] := by simpa using hids
      simp [h0]
  | cons b bs ih =>
      cases l1 with
      | nil => simp at hids
      | cons a as =>
          rw [List.map_cons, List.map_cons] at hids
          injection hids with hab htl
          rw [List.map_cons, List.nodup_cons] at hnd
          have hsave : saveProduct (a :: as) b = b :: as := by
            simp [saveProduct, hab]
          rw [List.foldl_cons, hsave]
          have hne : ∀ c ∈ bs, ¬ b.id = c.id := by
            intro c hc he
            apply hnd.1
            rw [hab, he, htl]
            exact List.mem_map_of_mem Product.id hc
          rw [foldl_saveProduct_cons b as bs hne, ih as htl hnd.2]

/-- C5: on the first finalization of a delivery note (draft with no
number), the stock the app observes for any product id drops by the
total quantity the document's linked items charge against it — and for
a quote finalization, by nothing.  The deducted inventory is what gets
persisted (given the in-memory inventory mirrors the store and ids are
pairwise distinct), and saving the now-numbered document again changes
neither the in-memory nor the persisted inventory. -/
theorem delivery_stock_decrement (s : AppState) (pid : String)
    (h1 : s.currentDoc.number = "") (h2 : ¬ s.currentDoc.clientName = "")
    (hsync : s.store.inventory = s.inventory)
    (hnd : (s.inventory.map Product.id).Nodup) :
    stockOf (handleSaveDocument s).inventory pid
        = (stockOf s.inventory pid).map (fun st => st
            - (if s.currentDoc.type = DocType.entrega
               then itemsQty s.currentDoc.items pid else 0)) ∧
    (handleSaveDocument s).store.inventory = (handleSaveDocument s).inventory ∧
    (handleSaveDocument (handleSaveDocument s)).inventory
        = (handleSaveDocument s).inventory ∧
    (handleSaveDocument (handleSaveDocument s)).store.inventory
        = (handleSaveDocument s).store.inventory := by
  refine ⟨?_, ?_, ?_, ?_⟩
  · cases htype : s.currentDoc.type
    · simp [handleSaveDocument, h1, h2, htype]
    · simp [handleSaveDocument, h1, h2, htype, stockOf_applyItems]
  · cases htype : s.currentDoc.type
    · simp [handleSaveDocument, h1, h2, htype, hsync]
    · simp [handleSaveDocument, h1, h2, htype, hsync]
      exact foldl_saveProduct_self _ _ ((map_id_applyItems _ _).symm) hnd
  · cases htype : s.currentDoc.type <;>
      simp [handleSaveDocument, h1, h2, htype, pre_pad_ne_empty,
        ne_pad_ne_empty]
  · cases htype : s.currentDoc.type <;>
      simp [handleSaveDocument, h1, h2, htype, pre_pad_ne_empty,
        ne_pad_ne_empty]

/-- Witness for C5 at the sample delivery state (stock 1, one linked
line of quantity 3). -/
theorem delivery_stock_decrement_witness :
    stockOf (handleSaveDocument sampleDeliveryState).inventory "p1"
        = (stockOf sampleDeliveryState.inventory "p1").map (fun st => st
            - (if sampleDeliveryState.currentDoc.type = DocType.entrega
               then itemsQty sampleDeliveryState.currentDoc.items "p1" else 0)) ∧
    (handleSaveDocument sampleDeliveryState).store.inventory
        = (handleSaveDocument sampleDeliveryState).inventory ∧
    (handleSaveDocument (handleSaveDocument sampleDeliveryState)).inventory
        = (handleSaveDocument sampleDeliveryState).inventory ∧
    (handleSaveDocument (handleSaveDocument sampleDeliveryState)).store.inventory
        = (handleSaveDocument sampleDeliveryState).store.inventory :=
  delivery_stock_decrement sampleDeliveryState "p1" rfl (by decide) rfl
    (by decide)

/-- C6: a first save advances only its own type's counter (a quote
leaves the delivery counter alone and vice versa), and finalizing two
documents of the same type in sequence consumes the two contiguous,
strictly increasing counter values n and n+1, leaving the counter at
n+2 and the other counter untouched. -/
theorem counters_independent_and_contiguous (s : AppState) (d2 : Document)
    (h1 : s.currentDoc.number = "") (h2 : ¬ s.currentDoc.clientName = "")
    (h3 : d2.number = "") (h4 : ¬ d2.clientName = "")
    (h5 : d2.type = s.currentDoc.type) :
    (handleSaveDocument s).settings.nextDeliveryNumber
        = (if s.currentDoc.type = DocType.presupuesto
           then s.settings.nextDeliveryNumber
           else s.settings.nextDeliveryNumber + 1) ∧
    (handleSaveDocument s).settings.nextBudgetNumber
        = (if s.currentDoc.type = DocType.presupuesto
           then s.settings.nextBudgetNumber + 1
           else s.settings.nextBudgetNumber) ∧
    (handleSaveDocument s).currentDoc.number
        = (if s.currentDoc.type = DocType.presupuesto
           then "PRE-" ++ padStart 6 '0' (toString s.settings.nextBudgetNumber)
           else "NE-" ++ padStart 6 '0' (toString s.settings.nextDeliveryNumber)) ∧
    (handleSaveDocument { handleSaveDocument s with currentDoc := d2 }).currentDoc.number
        = (if s.currentDoc.type = DocType.presupuesto
           then "PRE-" ++ padStart 6 '0' (toString (s.settings.nextBudgetNumber + 1))
           else "NE-" ++ padStart 6 '0' (toString (s.settings.nextDeliveryNumber + 1))) ∧
    (handleSaveDocument { handleSaveDocument s with currentDoc := d2 }).settings.nextBudgetNumber
        = (if s.currentDoc.type = DocType.presupuesto
           then s.settings.nextBudgetNumber + 2
           else s.settings.nextBudgetNumber) ∧
    (handleSaveDocument { handleSaveDocument s with currentDoc := d2 }).settings.nextDeliveryNumber
        = (if s.currentDoc.type = DocType.presupuesto
           then s.settings.nextDeliveryNumber
           else s.settings.nextDeliveryNumber + 2) := by
  cases htype : s.currentDoc.type <;>
    simp [handleSaveDocument, h1, h2, h3, h4, h5, htype]

/-- Witness for C6: two quote drafts saved in sequence from the sample
state. -/
theorem counters_independent_and_contiguous_witness :
    (handleSaveDocument sampleQuoteState).settings.nextDeliveryNumber
        = (if sampleQuoteState.currentDoc.type = DocType.presupuesto
           then sampleQuoteState.settings.nextDeliveryNumber
           else sampleQuoteState.settings.nextDeliveryNumber + 1) ∧
    (handleSaveDocument sampleQuoteState).settings.nextBudgetNumber
        = (if sampleQuoteState.currentDoc.type = DocType.presupuesto
           then sampleQuoteState.settings.nextBudgetNumber + 1
           else sampleQuoteState.settings.nextBudgetNumber) ∧
    (handleSaveDocument sampleQuoteState).currentDoc.number
        = (if sampleQuoteState.currentDoc.type = DocType.presupuesto
           then "PRE-" ++ padStart 6 '0' (toString sampleQuoteState.settings.nextBudgetNumber)
           else "NE-" ++ padStart 6 '0' (toString sampleQuoteState.settings.nextDeliveryNumber)) ∧
    (handleSaveDocument { handleSaveDocument sampleQuoteState with
        currentDoc := sampleDraft DocType.presupuesto [] }).currentDoc.number
        = (if sampleQuoteState.currentDoc.type = DocType.presupuesto
           then "PRE-" ++ padStart 6 '0' (toString (sampleQuoteState.settings.nextBudgetNumber + 1))
           else "NE-" ++ padStart 6 '0' (toString (sampleQuoteState.settings.nextDeliveryNumber + 1))) ∧
    (handleSaveDocument { handleSaveDocument sampleQuoteState with
        currentDoc := sampleDraft DocType.presupuesto [] }).settings.nextBudgetNumber
        = (if sampleQuoteState.currentDoc.type = DocType.presupuesto
           then sampleQuoteState.settings.nextBudgetNumber + 2
           else sampleQuoteState.settings.nextBudgetNumber) ∧
    (handleSaveDocument { handleSaveDocument sampleQuoteState with
        currentDoc := sampleDraft DocType.presupuesto [] }).settings.nextDeliveryNumber
        = (if sampleQuoteState.currentDoc.type = DocType.presupuesto
           then sampleQuoteState.settings.nextDeliveryNumber
           else sampleQuoteState.settings.nextDeliveryNumber + 2) :=
  counters_independent_and_contiguous sampleQuoteState
    (sampleDraft DocType.presupuesto []) rfl (by decide) rfl (by decide) rfl

/-- C10: the deduction on first delivery finalization is selective and
unguarded: for a draft delivery note with a single line item, a product
id observed in inventory loses exactly the item quantity (first
matching entry; the product ids of the inventory are untouched), an
item with an empty product id or an id matching no product changes no
observable stock, and the subtraction is not clamped at zero — on the
sample state (stock 1, quantity 3) the persisted stock becomes -2. -/
theorem stock_decrement_unguarded_selective (s : AppState) (it : DocItem)
    (pid : String)
    (h1 : s.currentDoc.number = "") (h2 : ¬ s.currentDoc.clientName = "")
    (h3 : s.currentDoc.type = DocType.entrega)
    (hitems : s.currentDoc.items = [it]) :
    stockOf (handleSaveDocument s).inventory pid
        = (if it.id = pid ∧ ¬ it.id = ""
           then (stockOf s.inventory pid).map (fun st => st - it.quantity)
           else stockOf s.inventory pid) ∧
    (handleSaveDocument s).inventory.map Product.id
        = s.inventory.map Product.id ∧
    stockOf (handleSaveDocument sampleDeliveryState).inventory "p1"
        = some (-2) := by
  refine ⟨?_, ?_, ?_⟩
  · simp [handleSaveDocument, h1, h2, h3, hitems, applyItems,
      stockOf_applyItem]
  · simp [handleSaveDocument, h1, h2, h3, map_id_applyItems]
  · have hA : ¬ ("ACME" = "") := by decide
    have hP : ¬ ("p1" = "") := by decide
    have hPP : ("p1" : String) = "p1" := rfl
    have hD : ¬ (DocType.entrega = DocType.presupuesto) := by decide
    norm_num [handleSaveDocument, sampleDeliveryState, sampleDraft,
      applyItems, applyItem, decFirst, stockOf, mkItem, sampleProduct,
      hA, hP, hPP, hD]

/-- Witness for C10 at the sample delivery state and its single item. -/
theorem stock_decrement_unguarded_selective_witness :
    stockOf (handleSaveDocument sampleDeliveryState).inventory "p1"
        = (if (mkItem "p1" 3 10 30).id = "p1" ∧ ¬ (mkItem "p1" 3 10 30).id = ""
           then (stockOf sampleDeliveryState.inventory "p1").map
                  (fun st => st - (mkItem "p1" 3 10 30).quantity)
           else stockOf sampleDeliveryState.inventory "p1") ∧
    (handleSaveDocument sampleDeliveryState).inventory.map Product.id
        = sampleDeliveryState.inventory.map Product.id ∧
    stockOf (handleSaveDocument sampleDeliveryState).inventory "p1"
        = some (-2) :=
  stock_decrement_unguarded_selective sampleDeliveryState
    (mkItem "p1" 3 10 30) "p1" rfl (by decide) rfl rfl
